import Mathlib

/-!
Shallow embedding of the STM32F1 board-support glue of the Embox repository:

* `src/drivers/serial/stm32_usart/hal_msp_f1.c` — the per-instance USART
  resource resolvers and `HAL_UART_MspInit`;
* `src/drivers/serial/stm32_usart/stm32_usart_conf_f1.h` — the compile-time
  binding table selected by the `usartx` build option;
* `third-party/bsp/stmf1cube/arch.c` — `SystemClock_Config`, `arch_init`,
  `arch_shutdown`, `HAL_InitTick`, `HAL_GetTick`.

Machine addresses and HAL register encodings are the STM32F1 device values;
pure functions are Lean functions, `assert(0)` paths become `Option.none`,
and straight-line register-programming routines are embedded as the list of
hardware-visible actions they perform, parameterised by the status results
of the external HAL calls.
-/

namespace Embox

/-! ### Device constants (STM32F103 memory map and HAL encodings) -/

/-- Base address of USART1 on the STM32F1 (`0x40013800`). -/
def USART1 : Nat := 0x40013800

/-- Base address of USART2 on the STM32F1 (`0x40004400`). -/
def USART2 : Nat := 0x40004400

/-- Base address of the GPIOA port registers on the STM32F1 (`0x40010800`). -/
def GPIOA : Nat := 0x40010800

/-- `GPIO_PIN_2` pin mask. -/
def GPIO_PIN_2 : Nat := 1 <<< 2

/-- `GPIO_PIN_3` pin mask. -/
def GPIO_PIN_3 : Nat := 1 <<< 3

/-- `GPIO_PIN_9` pin mask. -/
def GPIO_PIN_9 : Nat := 1 <<< 9

/-- `GPIO_PIN_10` pin mask. -/
def GPIO_PIN_10 : Nat := 1 <<< 10

/-- `GPIO_MODE_AF_PP` — alternate-function push-pull (F1 HAL encoding). -/
def GPIO_MODE_AF_PP : Nat := 0x00000002

/-- `GPIO_PULLUP` (F1 HAL encoding). -/
def GPIO_PULLUP : Nat := 0x00000001

/-- `GPIO_SPEED_FREQ_HIGH` (F1 HAL encoding). -/
def GPIO_SPEED_FREQ_HIGH : Nat := 0x00000003

/-- `HAL_OK` status. -/
def HAL_OK : Nat := 0x00

/-- `HAL_ERROR` status. -/
def HAL_ERROR : Nat := 0x01

/-! ### The clock-enable actions invoked by the resolvers

The `__HAL_RCC_*_CLK_ENABLE` macros are zero-argument actions on the RCC
peripheral-clock-enable registers; the embedding names which one is invoked. -/

/-- The zero-argument RCC clock-enable actions reachable from this code. -/
inductive ClkEnableAction where
  | RCC_GPIOA_CLK_ENABLE
  | RCC_USART1_CLK_ENABLE
  | RCC_USART2_CLK_ENABLE
  deriving DecidableEq, Repr

/-! ### Resolver functions from `hal_msp_f1.c`

Each C function either returns a value or hits `assert(0)`, which (with
assertions enabled) halts execution; the halting path is `none`. -/

/-- `USART_TX_GPIO_CLK_ENABLE` from `hal_msp_f1.c`: enables the GPIOA clock
for USART1/USART2, asserts otherwise. -/
def USART_TX_GPIO_CLK_ENABLE (usart_base : Nat) : Option ClkEnableAction :=
  if usart_base = USART1 ∨ usart_base = USART2 then
    some .RCC_GPIOA_CLK_ENABLE
  else
    none

/-- `USART_RX_GPIO_CLK_ENABLE` from `hal_msp_f1.c`. -/
def USART_RX_GPIO_CLK_ENABLE (usart_base : Nat) : Option ClkEnableAction :=
  if usart_base = USART1 ∨ usart_base = USART2 then
    some .RCC_GPIOA_CLK_ENABLE
  else
    none

/-- `USART_CLK_ENABLE` from `hal_msp_f1.c`: enables the peripheral clock of
the matching USART instance, asserts otherwise. -/
def USART_CLK_ENABLE (usart_base : Nat) : Option ClkEnableAction :=
  if usart_base = USART1 then some .RCC_USART1_CLK_ENABLE
  else if usart_base = USART2 then some .RCC_USART2_CLK_ENABLE
  else none

/-- `USART_RX_PIN` from `hal_msp_f1.c`. -/
def USART_RX_PIN (usart_base : Nat) : Option Nat :=
  if usart_base = USART1 then some GPIO_PIN_10
  else if usart_base = USART2 then some GPIO_PIN_3
  else none

/-- `USART_TX_PIN` from `hal_msp_f1.c`. -/
def USART_TX_PIN (usart_base : Nat) : Option Nat :=
  if usart_base = USART1 then some GPIO_PIN_9
  else if usart_base = USART2 then some GPIO_PIN_2
  else none

/-- `USART_RX_GPIO_PORT` from `hal_msp_f1.c`. -/
def USART_RX_GPIO_PORT (usart_base : Nat) : Option Nat :=
  if usart_base = USART1 ∨ usart_base = USART2 then some GPIOA
  else none

/-- `USART_TX_GPIO_PORT` from `hal_msp_f1.c`. -/
def USART_TX_GPIO_PORT (usart_base : Nat) : Option Nat :=
  if usart_base = USART1 ∨ usart_base = USART2 then some GPIOA
  else none

/-! ### `HAL_UART_MspInit` as a trace of hardware-visible actions -/

/-- The fields of `GPIO_InitTypeDef` that `HAL_UART_MspInit` assigns before
each `HAL_GPIO_Init` call. -/
structure GPIO_InitTypeDef where
  Pin : Nat
  Mode : Nat
  Pull : Nat
  Speed : Nat
  deriving DecidableEq, Repr

/-- A hardware-visible step of `HAL_UART_MspInit`: an RCC clock-enable
invocation or a `HAL_GPIO_Init(port, cfg)` call. -/
inductive MspEvent where
  | clkEnable (a : ClkEnableAction)
  | gpioInit (port : Nat) (cfg : GPIO_InitTypeDef)
  deriving DecidableEq, Repr

/-- Whether an `MspEvent` is a clock-enable invocation. -/
def MspEvent.isClkEnable : MspEvent → Bool
  | .clkEnable _ => true
  | .gpioInit _ _ => false

/-- Whether an `MspEvent` is a `HAL_GPIO_Init` pin-configuration call. -/
def MspEvent.isGpioInit : MspEvent → Bool
  | .clkEnable _ => false
  | .gpioInit _ _ => true

/-- `HAL_UART_MspInit` from `hal_msp_f1.c`, as the ordered list of
hardware-visible actions it performs for the given `huart->Instance`
base address: the three clock enables, then `HAL_GPIO_Init` on the TX
pin configuration, then `HAL_GPIO_Init` on the same configuration with
only the `Pin` field replaced by the RX pin.  Any resolver hitting its
`assert(0)` halts the whole sequence (`none`). -/
def HAL_UART_MspInit (uart_base : Nat) : Option (List MspEvent) := do
  let txPortClk ← USART_TX_GPIO_CLK_ENABLE uart_base
  let rxPortClk ← USART_RX_GPIO_CLK_ENABLE uart_base
  let usartClk ← USART_CLK_ENABLE uart_base
  let txPin ← USART_TX_PIN uart_base
  let txCfg : GPIO_InitTypeDef :=
    { Pin := txPin, Mode := GPIO_MODE_AF_PP, Pull := GPIO_PULLUP,
      Speed := GPIO_SPEED_FREQ_HIGH }
  let txPort ← USART_TX_GPIO_PORT uart_base
  let rxPin ← USART_RX_PIN uart_base
  let rxCfg : GPIO_InitTypeDef := { txCfg with Pin := rxPin }
  let rxPort ← USART_RX_GPIO_PORT uart_base
  return [.clkEnable txPortClk, .clkEnable rxPortClk, .clkEnable usartClk,
          .gpioInit txPort txCfg, .gpioInit rxPort rxCfg]

/-! ### Compile-time binding table from `stm32_usart_conf_f1.h`

The header expands, for build option `usartx = 1` or `2`, to a fixed set of
`USARTx_*` macros; any other option value leaves them undefined (`none`).
These are the second encoding of the instance-to-resource mapping, to be
compared with the runtime resolvers above. -/

/-- `USARTx` from `stm32_usart_conf_f1.h`, keyed by `MODOPS_USARTX`. -/
def USARTx (modops_usartx : Nat) : Option Nat :=
  if modops_usartx = 1 then some USART1
  else if modops_usartx = 2 then some USART2
  else none

/-- `USARTx_TX_PIN` from `stm32_usart_conf_f1.h`. -/
def USARTx_TX_PIN (modops_usartx : Nat) : Option Nat :=
  if modops_usartx = 1 then some GPIO_PIN_9
  else if modops_usartx = 2 then some GPIO_PIN_2
  else none

/-- `USARTx_RX_PIN` from `stm32_usart_conf_f1.h`. -/
def USARTx_RX_PIN (modops_usartx : Nat) : Option Nat :=
  if modops_usartx = 1 then some GPIO_PIN_10
  else if modops_usartx = 2 then some GPIO_PIN_3
  else none

/-- `USARTx_TX_GPIO_PORT` from `stm32_usart_conf_f1.h`. -/
def USARTx_TX_GPIO_PORT (modops_usartx : Nat) : Option Nat :=
  if modops_usartx = 1 then some GPIOA
  else if modops_usartx = 2 then some GPIOA
  else none

/-- `USARTx_RX_GPIO_PORT` from `stm32_usart_conf_f1.h`. -/
def USARTx_RX_GPIO_PORT (modops_usartx : Nat) : Option Nat :=
  if modops_usartx = 1 then some GPIOA
  else if modops_usartx = 2 then some GPIOA
  else none

/-- `USARTx_CLK_ENABLE` from `stm32_usart_conf_f1.h`
(`__USART1_CLK_ENABLE` / `__USART2_CLK_ENABLE`, the legacy aliases of the
`__HAL_RCC_*` macros). -/
def USARTx_CLK_ENABLE (modops_usartx : Nat) : Option ClkEnableAction :=
  if modops_usartx = 1 then some .RCC_USART1_CLK_ENABLE
  else if modops_usartx = 2 then some .RCC_USART2_CLK_ENABLE
  else none

/-! ### RCC / FLASH constants used by `SystemClock_Config` (F1 HAL encodings) -/

/-- `RCC_OSCILLATORTYPE_HSE`. -/
def RCC_OSCILLATORTYPE_HSE : Nat := 0x00000001

/-- `RCC_OSCILLATORTYPE_HSI`. -/
def RCC_OSCILLATORTYPE_HSI : Nat := 0x00000002

/-- `RCC_OSCILLATORTYPE_LSE`. -/
def RCC_OSCILLATORTYPE_LSE : Nat := 0x00000004

/-- `RCC_HSE_ON` (`RCC_CR_HSEON`). -/
def RCC_HSE_ON : Nat := 0x00010000

/-- `RCC_HSE_PREDIV_DIV1`. -/
def RCC_HSE_PREDIV_DIV1 : Nat := 0x00000000

/-- `RCC_LSE_ON` (`RCC_BDCR_LSEON`). -/
def RCC_LSE_ON : Nat := 0x00000001

/-- `RCC_HSI_ON` (`RCC_CR_HSION`). -/
def RCC_HSI_ON : Nat := 0x00000001

/-- `RCC_PLL_ON` PLL-state selector. -/
def RCC_PLL_ON : Nat := 0x00000002

/-- `RCC_PLLSOURCE_HSE` (`RCC_CFGR_PLLSRC`). -/
def RCC_PLLSOURCE_HSE : Nat := 0x00010000

/-- `RCC_PLL_MUL9` (`RCC_CFGR_PLLMULL9`): PLL input multiplied by 9. -/
def RCC_PLL_MUL9 : Nat := 0x001C0000

/-- `RCC_CLOCKTYPE_SYSCLK`. -/
def RCC_CLOCKTYPE_SYSCLK : Nat := 0x00000001

/-- `RCC_CLOCKTYPE_HCLK`. -/
def RCC_CLOCKTYPE_HCLK : Nat := 0x00000002

/-- `RCC_CLOCKTYPE_PCLK1`. -/
def RCC_CLOCKTYPE_PCLK1 : Nat := 0x00000004

/-- `RCC_CLOCKTYPE_PCLK2`. -/
def RCC_CLOCKTYPE_PCLK2 : Nat := 0x00000008

/-- `RCC_SYSCLKSOURCE_PLLCLK` (`RCC_CFGR_SW_PLL`). -/
def RCC_SYSCLKSOURCE_PLLCLK : Nat := 0x00000002

/-- `RCC_SYSCLK_DIV1` (`RCC_CFGR_HPRE_DIV1`): AHB clock not divided. -/
def RCC_SYSCLK_DIV1 : Nat := 0x00000000

/-- `RCC_HCLK_DIV1` (`RCC_CFGR_PPRE1_DIV1`): APB clock not divided. -/
def RCC_HCLK_DIV1 : Nat := 0x00000000

/-- `RCC_HCLK_DIV2` (`RCC_CFGR_PPRE1_DIV2`): APB clock = HCLK / 2. -/
def RCC_HCLK_DIV2 : Nat := 0x00000400

/-- `FLASH_LATENCY_2`: two flash wait states. -/
def FLASH_LATENCY_2 : Nat := 0x00000002

/-- `RCC_PERIPHCLK_RTC`. -/
def RCC_PERIPHCLK_RTC : Nat := 0x00000001

/-- `RCC_PERIPHCLK_ADC`. -/
def RCC_PERIPHCLK_ADC : Nat := 0x00000002

/-- `RCC_RTCCLKSOURCE_LSE` (`RCC_BDCR_RTCSEL_LSE`). -/
def RCC_RTCCLKSOURCE_LSE : Nat := 0x00000100

/-- `RCC_ADCPCLK2_DIV6` (`RCC_CFGR_ADCPRE_DIV6`): ADC clock = PCLK2 / 6. -/
def RCC_ADCPCLK2_DIV6 : Nat := 0x00008000

/-- Multiplication factor of a `RCC_PLL_MULx` encoding.  Modelled from the
spec: the HAL decode of the `PLLMULL` field (not part of this fragment)
maps `RCC_PLL_MULn` to the factor `n`; on the `CFGR` encoding this is
`(bits 21:18) + 2`. -/
def pllMulFactor (pllmul : Nat) : Nat := (pllmul >>> 18) % 16 + 2

/-- Division factor of a `RCC_SYSCLK_DIVx` AHB-prescaler encoding, given on
the values this fragment uses.  Modelled from the spec: `DIV1` means the
system clock is passed through undivided. -/
def sysclkDivFactor (hpre : Nat) : Nat :=
  if hpre = RCC_SYSCLK_DIV1 then 1 else 0

/-- Division factor of a `RCC_HCLK_DIVx` APB-prescaler encoding, given on
the values this fragment uses.  Modelled from the spec: `DIV1` passes the
AHB clock through, `DIV2` halves it. -/
def hclkDivFactor (ppre : Nat) : Nat :=
  if ppre = RCC_HCLK_DIV1 then 1
  else if ppre = RCC_HCLK_DIV2 then 2
  else 0

/-- Division factor of a `RCC_ADCPCLK2_DIVx` encoding, given on the values
this fragment uses.  Modelled from the spec: `DIV6` divides PCLK2 by six. -/
def adcDivFactor (adcpre : Nat) : Nat :=
  if adcpre = RCC_ADCPCLK2_DIV6 then 6 else 0

/-! ### `SystemClock_Config` from `arch.c` -/

/-- The PLL sub-structure of `RCC_OscInitTypeDef` (fields the code sets). -/
structure RCC_PLLInit where
  PLLState : Nat
  PLLSource : Nat
  PLLMUL : Nat
  deriving DecidableEq, Repr

/-- The fields of `RCC_OscInitTypeDef` that `SystemClock_Config` assigns. -/
structure RCC_OscInitTypeDef where
  OscillatorType : Nat
  HSEState : Nat
  HSEPredivValue : Nat
  LSEState : Nat
  HSIState : Nat
  PLL : RCC_PLLInit
  deriving DecidableEq, Repr

/-- The fields of `RCC_ClkInitTypeDef` that `SystemClock_Config` assigns. -/
structure RCC_ClkInitTypeDef where
  ClockType : Nat
  SYSCLKSource : Nat
  AHBCLKDivider : Nat
  APB1CLKDivider : Nat
  APB2CLKDivider : Nat
  deriving DecidableEq, Repr

/-- The fields of `RCC_PeriphCLKInitTypeDef` that `SystemClock_Config`
assigns. -/
structure RCC_PeriphCLKInitTypeDef where
  PeriphClockSelection : Nat
  RTCClockSelection : Nat
  AdcClockSelection : Nat
  deriving DecidableEq, Repr

/-- The `RCC_OscInitStruct` value that `SystemClock_Config` builds. -/
def systemClockOscInit : RCC_OscInitTypeDef :=
  { OscillatorType := RCC_OSCILLATORTYPE_HSE ||| RCC_OSCILLATORTYPE_LSE,
    HSEState := RCC_HSE_ON,
    HSEPredivValue := RCC_HSE_PREDIV_DIV1,
    LSEState := RCC_LSE_ON,
    HSIState := RCC_HSI_ON,
    PLL := { PLLState := RCC_PLL_ON,
             PLLSource := RCC_PLLSOURCE_HSE,
             PLLMUL := RCC_PLL_MUL9 } }

/-- The `RCC_ClkInitStruct` value that `SystemClock_Config` builds. -/
def systemClockClkInit : RCC_ClkInitTypeDef :=
  { ClockType := RCC_CLOCKTYPE_HCLK ||| RCC_CLOCKTYPE_SYSCLK
                   ||| RCC_CLOCKTYPE_PCLK1 ||| RCC_CLOCKTYPE_PCLK2,
    SYSCLKSource := RCC_SYSCLKSOURCE_PLLCLK,
    AHBCLKDivider := RCC_SYSCLK_DIV1,
    APB1CLKDivider := RCC_HCLK_DIV2,
    APB2CLKDivider := RCC_HCLK_DIV1 }

/-- The `PeriphClkInit` value that `SystemClock_Config` builds. -/
def systemClockPeriphClkInit : RCC_PeriphCLKInitTypeDef :=
  { PeriphClockSelection := RCC_PERIPHCLK_RTC ||| RCC_PERIPHCLK_ADC,
    RTCClockSelection := RCC_RTCCLKSOURCE_LSE,
    AdcClockSelection := RCC_ADCPCLK2_DIV6 }

/-- An observable step of `SystemClock_Config`: one of the three HAL
configuration calls, or a diagnostic `printf`. -/
inductive ClkEvent where
  | oscConfig (cfg : RCC_OscInitTypeDef)
  | clockConfig (cfg : RCC_ClkInitTypeDef) (flashLatency : Nat)
  | periphClkConfig (cfg : RCC_PeriphCLKInitTypeDef)
  | printMsg (s : String)
  deriving DecidableEq, Repr

/-- Whether a `ClkEvent` is a diagnostic print. -/
def ClkEvent.isPrint : ClkEvent → Bool
  | .printMsg _ => true
  | _ => false

/-- Whether a `ClkEvent` is the `HAL_RCC_OscConfig` call. -/
def ClkEvent.isOscConfig : ClkEvent → Bool
  | .oscConfig _ => true
  | _ => false

/-- Whether a `ClkEvent` is the `HAL_RCC_ClockConfig` call. -/
def ClkEvent.isClockConfig : ClkEvent → Bool
  | .clockConfig _ _ => true
  | _ => false

/-- Whether a `ClkEvent` is the `HAL_RCCEx_PeriphCLKConfig` call. -/
def ClkEvent.isPeriphClkConfig : ClkEvent → Bool
  | .periphClkConfig _ => true
  | _ => false

/-- `SystemClock_Config` from `arch.c` as the ordered list of its observable
steps, parameterised by the status each of the three external HAL calls
returns (`oscRes`, `clkRes`, `periphRes`).  A non-`HAL_OK` status only adds
a diagnostic print; the function always runs all three steps and returns. -/
def SystemClock_Config (oscRes clkRes periphRes : Nat) : List ClkEvent :=
  [ClkEvent.oscConfig systemClockOscInit]
    ++ (if oscRes ≠ HAL_OK
          then [ClkEvent.printMsg ">>> SystemClock_Config failed\n"] else [])
    ++ [ClkEvent.clockConfig systemClockClkInit FLASH_LATENCY_2]
    ++ (if clkRes ≠ HAL_OK
          then [ClkEvent.printMsg ">>> SystemClock_Config failed\n"] else [])
    ++ [ClkEvent.periphClkConfig systemClockPeriphClkInit]
    ++ (if periphRes ≠ HAL_OK
          then [ClkEvent.printMsg ">>> RTC and ADC clocks failed\n"] else [])

/-! ### `arch_init`, `arch_shutdown` and the tick stubs from `arch.c` -/

/-- Modelled from the spec: the external crystal frequency is 8 MHz; the
`HSE_VALUE` board constant itself lives in the BSP configuration headers,
outside this fragment. -/
def HSE_VALUE : Nat := 8000000

/-- The literal constant against which `arch_init`'s `static_assert`
compares the `core_freq` build option. -/
def ARCH_CORE_FREQ_ASSERT_VALUE : Nat := 72000000

/-- The `static_assert` condition evaluated (at build time, once, before
anything runs and independently of any runtime status) in `arch_init`:
`OPTION_MODULE_GET(embox__arch__system, NUMBER, core_freq) == 72000000`. -/
def arch_init_static_assert (core_freq : Nat) : Bool :=
  core_freq == ARCH_CORE_FREQ_ASSERT_VALUE

/-- An observable runtime step of `arch_init`. -/
inductive ArchEvent where
  | systemInit
  | halInit
  | nvicTableFillStubs
  | clk (e : ClkEvent)
  deriving DecidableEq, Repr

/-- `arch_init` from `arch.c` as the ordered list of its runtime steps
(the `static_assert` is compile-time and contributes no runtime step):
`SystemInit()`, `HAL_Init()`, `nvic_table_fill_stubs()`, then
`SystemClock_Config()` with the given HAL-call statuses. -/
def arch_init (oscRes clkRes periphRes : Nat) : List ArchEvent :=
  [ArchEvent.systemInit, ArchEvent.halInit, ArchEvent.nvicTableFillStubs]
    ++ (SystemClock_Config oscRes clkRes periphRes).map ArchEvent.clk

/-- `ARCH_SHUTDOWN_MODE_HALT` selector. -/
def ARCH_SHUTDOWN_MODE_HALT : Nat := 0

/-- `ARCH_SHUTDOWN_MODE_REBOOT` selector. -/
def ARCH_SHUTDOWN_MODE_REBOOT : Nat := 1

/-- `ARCH_SHUTDOWN_MODE_ABORT` selector. -/
def ARCH_SHUTDOWN_MODE_ABORT : Nat := 2

/-- An observable step of `arch_shutdown`. -/
inductive ShutdownEvent where
  | nvicSystemReset
  deriving DecidableEq, Repr

/-- `arch_shutdown` from `arch.c`: the `switch` sends `HALT`, `REBOOT`,
`ABORT` and the `default` case alike to a single `HAL_NVIC_SystemReset()`,
after which the `/* NOTREACHED */ while(1)` loop never returns.  The result
is the list of reset invocations paired with whether control returns to
the caller (always `false`). -/
def arch_shutdown (mode : Nat) : List ShutdownEvent × Bool :=
  let events :=
    if mode = ARCH_SHUTDOWN_MODE_HALT then [ShutdownEvent.nvicSystemReset]
    else if mode = ARCH_SHUTDOWN_MODE_REBOOT then [ShutdownEvent.nvicSystemReset]
    else if mode = ARCH_SHUTDOWN_MODE_ABORT then [ShutdownEvent.nvicSystemReset]
    else [ShutdownEvent.nvicSystemReset]
  (events, false)

/-- `HAL_InitTick` from `arch.c`: `return HAL_OK;` — no statement touches
any state, so as a transformer of the ambient hardware/program state `σ`
it returns `HAL_OK` and the state unchanged. -/
def HAL_InitTick {σ : Type} (TickPriority : Nat) (state : σ) : Nat × σ :=
  (HAL_OK, state)

/-- `HAL_GetTick` from `arch.c`: `return clock_sys_ticks();` — delegates to
the external monotonic tick counter, whose current value is the
parameter. -/
def HAL_GetTick (clock_sys_ticks : Nat) : Nat :=
  clock_sys_ticks

/-! ## Theorems for the claims -/

/-- C1: for both supported serial instances the resolvers return the fixed
board mapping — `USART_TX_PIN` yields pin 9 for USART1 and pin 2 for
USART2, `USART_RX_PIN` yields pin 10 for USART1 and pin 3 for USART2, both
port resolvers yield GPIOA for both instances, and `USART_CLK_ENABLE`
invokes the clock-enable action of the same instance. -/
theorem usart_resolver_fixed_mapping :
    USART_TX_PIN USART1 = some GPIO_PIN_9 ∧ GPIO_PIN_9 = 2 ^ 9 ∧
    USART_TX_PIN USART2 = some GPIO_PIN_2 ∧ GPIO_PIN_2 = 2 ^ 2 ∧
    USART_RX_PIN USART1 = some GPIO_PIN_10 ∧ GPIO_PIN_10 = 2 ^ 10 ∧
    USART_RX_PIN USART2 = some GPIO_PIN_3 ∧ GPIO_PIN_3 = 2 ^ 3 ∧
    USART_TX_GPIO_PORT USART1 = some GPIOA ∧
    USART_TX_GPIO_PORT USART2 = some GPIOA ∧
    USART_RX_GPIO_PORT USART1 = some GPIOA ∧
    USART_RX_GPIO_PORT USART2 = some GPIOA ∧
    USART_CLK_ENABLE USART1 = some ClkEnableAction.RCC_USART1_CLK_ENABLE ∧
    USART_CLK_ENABLE USART2 = some ClkEnableAction.RCC_USART2_CLK_ENABLE := by
  decide

/-- C2: every identifier outside `{USART1, USART2}` drives each of the
seven resolver functions into the `assert(0)` halt path (`none`); none of
them returns a value silently. -/
theorem usart_resolver_unsupported_asserts (b : Nat)
    (h1 : b ≠ USART1) (h2 : b ≠ USART2) :
    USART_TX_GPIO_CLK_ENABLE b = none ∧
    USART_RX_GPIO_CLK_ENABLE b = none ∧
    USART_CLK_ENABLE b = none ∧
    USART_TX_PIN b = none ∧
    USART_RX_PIN b = none ∧
    USART_TX_GPIO_PORT b = none ∧
    USART_RX_GPIO_PORT b = none := by
  simp [USART_TX_GPIO_CLK_ENABLE, USART_RX_GPIO_CLK_ENABLE, USART_CLK_ENABLE,
        USART_TX_PIN, USART_RX_PIN, USART_TX_GPIO_PORT, USART_RX_GPIO_PORT,
        h1, h2]

/-- Witness for C2 at the concrete unsupported identifier `0`. -/
theorem usart_resolver_unsupported_asserts_witness :
    USART_TX_GPIO_CLK_ENABLE 0 = none ∧
    USART_RX_GPIO_CLK_ENABLE 0 = none ∧
    USART_CLK_ENABLE 0 = none ∧
    USART_TX_PIN 0 = none ∧
    USART_RX_PIN 0 = none ∧
    USART_TX_GPIO_PORT 0 = none ∧
    USART_RX_GPIO_PORT 0 = none :=
  usart_resolver_unsupported_asserts 0 (by decide) (by decide)

/-- C3: for every supported instance, `HAL_UART_MspInit` performs all three
clock-enable actions strictly before either `HAL_GPIO_Init`
pin-configuration call: in its event trace every clock-enable index is
strictly below every pin-configuration index. -/
theorem uart_mspInit_clocks_before_pins (b : Nat)
    (h : b = USART1 ∨ b = USART2) :
    ∃ evs, HAL_UART_MspInit b = some evs ∧
      (evs.countP (fun e => e.isClkEnable)) = 3 ∧
      (evs.countP (fun e => e.isGpioInit)) = 2 ∧
      ∀ (i j : Fin evs.length),
        (evs.get i).isClkEnable = true → (evs.get j).isGpioInit = true →
        (i : Nat) < (j : Nat) := by
  rcases h with h | h <;> subst h
  · exact ⟨_, rfl, by decide, by decide, by decide⟩
  · exact ⟨_, rfl, by decide, by decide, by decide⟩

/-- Witness for C3 at the concrete instance USART1. -/
theorem uart_mspInit_clocks_before_pins_witness :
    ∃ evs, HAL_UART_MspInit USART1 = some evs ∧
      (evs.countP (fun e => e.isClkEnable)) = 3 ∧
      (evs.countP (fun e => e.isGpioInit)) = 2 ∧
      ∀ (i j : Fin evs.length),
        (evs.get i).isClkEnable = true → (evs.get j).isGpioInit = true →
        (i : Nat) < (j : Nat) :=
  uart_mspInit_clocks_before_pins USART1 (Or.inl rfl)

/-- C4: whatever statuses the three HAL configuration calls return,
`SystemClock_Config` attempts each call exactly once, in order, and a
failure adds only a diagnostic print: stripping prints always leaves the
all-success trace, so nothing halts, rolls back or retries. -/
theorem systemClock_config_steps_attempted_once (oscRes clkRes periphRes : Nat) :
    ((SystemClock_Config oscRes clkRes periphRes).countP
        (fun e => e.isOscConfig)) = 1 ∧
    ((SystemClock_Config oscRes clkRes periphRes).countP
        (fun e => e.isClockConfig)) = 1 ∧
    ((SystemClock_Config oscRes clkRes periphRes).countP
        (fun e => e.isPeriphClkConfig)) = 1 ∧
    (SystemClock_Config oscRes clkRes periphRes).filter
        (fun e => !e.isPrint) =
      SystemClock_Config HAL_OK HAL_OK HAL_OK := by
  unfold SystemClock_Config
  by_cases h1 : oscRes = HAL_OK <;> by_cases h2 : clkRes = HAL_OK <;>
    by_cases h3 : periphRes = HAL_OK <;>
    simp [h1, h2, h3, List.countP, List.countP.go, ClkEvent.isOscConfig,
          ClkEvent.isClockConfig, ClkEvent.isPeriphClkConfig,
          ClkEvent.isPrint, List.filter]

/-- C5: the all-success run of `SystemClock_Config` is exactly the three
documented steps in order, and the configuration records carry the
documented clock tree: HSE and LSE enabled with HSI kept on, PLL fed from
HSE at ×9; PLL selected as SYSCLK with AHB ÷1, APB1 ÷2, APB2 ÷1 and flash
latency 2; RTC clocked from LSE and ADC from PCLK2 ÷6. -/
theorem systemClock_config_programs_documented_tree :
    SystemClock_Config HAL_OK HAL_OK HAL_OK =
      [ClkEvent.oscConfig systemClockOscInit,
       ClkEvent.clockConfig systemClockClkInit FLASH_LATENCY_2,
       ClkEvent.periphClkConfig systemClockPeriphClkInit] ∧
    systemClockOscInit.OscillatorType =
      (RCC_OSCILLATORTYPE_HSE ||| RCC_OSCILLATORTYPE_LSE) ∧
    systemClockOscInit.HSEState = RCC_HSE_ON ∧
    systemClockOscInit.LSEState = RCC_LSE_ON ∧
    systemClockOscInit.HSIState = RCC_HSI_ON ∧
    systemClockOscInit.PLL.PLLState = RCC_PLL_ON ∧
    systemClockOscInit.PLL.PLLSource = RCC_PLLSOURCE_HSE ∧
    pllMulFactor systemClockOscInit.PLL.PLLMUL = 9 ∧
    systemClockClkInit.SYSCLKSource = RCC_SYSCLKSOURCE_PLLCLK ∧
    sysclkDivFactor systemClockClkInit.AHBCLKDivider = 1 ∧
    hclkDivFactor systemClockClkInit.APB1CLKDivider = 2 ∧
    hclkDivFactor systemClockClkInit.APB2CLKDivider = 1 ∧
    systemClockPeriphClkInit.RTCClockSelection = RCC_RTCCLKSOURCE_LSE ∧
    adcDivFactor systemClockPeriphClkInit.AdcClockSelection = 6 := by
  decide

/-- C6: `arch_init`'s build-time assertion (a function of the `core_freq`
option alone, hence evaluated once and independent of every runtime
status) accepts exactly the value 72000000, which equals the PLL-derived
frequency 8 MHz × 9 ÷ 1 for the oscillator, multiplier and AHB divider
that `SystemClock_Config` programs. -/
theorem arch_init_core_freq_assert_value (core_freq : Nat) :
    (arch_init_static_assert core_freq = true ↔
      core_freq = HSE_VALUE * pllMulFactor systemClockOscInit.PLL.PLLMUL /
        sysclkDivFactor systemClockClkInit.AHBCLKDivider) ∧
    ARCH_CORE_FREQ_ASSERT_VALUE = 72000000 := by
  have hval : HSE_VALUE * pllMulFactor systemClockOscInit.PLL.PLLMUL /
      sysclkDivFactor systemClockClkInit.AHBCLKDivider =
      ARCH_CORE_FREQ_ASSERT_VALUE := by decide
  refine ⟨?_, rfl⟩
  rw [hval]
  simp [arch_init_static_assert]

/-- C7: for every mode value — the three named selectors and anything
else — `arch_shutdown` invokes the hardware reset exactly once, behaves
identically to the `HALT` case, and never returns control to its caller. -/
theorem arch_shutdown_resets_once_never_returns (mode : Nat) :
    ((arch_shutdown mode).1.count ShutdownEvent.nvicSystemReset) = 1 ∧
    (arch_shutdown mode).2 = false ∧
    arch_shutdown mode = arch_shutdown ARCH_SHUTDOWN_MODE_HALT := by
  unfold arch_shutdown
  by_cases h1 : mode = ARCH_SHUTDOWN_MODE_HALT <;>
    by_cases h2 : mode = ARCH_SHUTDOWN_MODE_REBOOT <;>
    by_cases h3 : mode = ARCH_SHUTDOWN_MODE_ABORT <;>
    simp [h1, h2, h3, List.count]

/-- C8: `HAL_InitTick` returns `HAL_OK` for every tick-priority argument
and leaves the ambient state untouched, and `HAL_GetTick` returns exactly
the external monotonic tick counter's current value. -/
theorem hal_tick_stub_behavior {σ : Type} (TickPriority : Nat) (state : σ)
    (ticks : Nat) :
    HAL_InitTick TickPriority state = (HAL_OK, state) ∧
    HAL_GetTick ticks = ticks :=
  ⟨rfl, rfl⟩

/-- C9: in `HAL_UART_MspInit`, for every supported instance, the RX
`HAL_GPIO_Init` call reuses the TX configuration record with only the
`Pin` field changed: alternate-function push-pull mode, pull-up and high
speed are identical between the two calls. -/
theorem uart_mspInit_rx_matches_tx_config (b : Nat)
    (h : b = USART1 ∨ b = USART2) :
    ∃ pre txPort rxPort txCfg rxCfg,
      HAL_UART_MspInit b =
        some (pre ++ [MspEvent.gpioInit txPort txCfg,
                      MspEvent.gpioInit rxPort rxCfg]) ∧
      (∀ e ∈ pre, e.isClkEnable = true) ∧
      rxCfg = { txCfg with Pin := rxCfg.Pin } ∧
      rxCfg.Pin ≠ txCfg.Pin ∧
      txCfg.Mode = GPIO_MODE_AF_PP ∧
      txCfg.Pull = GPIO_PULLUP ∧
      txCfg.Speed = GPIO_SPEED_FREQ_HIGH := by
  rcases h with h | h <;> subst h
  · exact ⟨[MspEvent.clkEnable ClkEnableAction.RCC_GPIOA_CLK_ENABLE,
            MspEvent.clkEnable ClkEnableAction.RCC_GPIOA_CLK_ENABLE,
            MspEvent.clkEnable ClkEnableAction.RCC_USART1_CLK_ENABLE],
          GPIOA, GPIOA,
          ⟨GPIO_PIN_9, GPIO_MODE_AF_PP, GPIO_PULLUP, GPIO_SPEED_FREQ_HIGH⟩,
          ⟨GPIO_PIN_10, GPIO_MODE_AF_PP, GPIO_PULLUP, GPIO_SPEED_FREQ_HIGH⟩,
          by decide, by decide, by decide, by decide, by decide, by decide,
          by decide⟩
  · exact ⟨[MspEvent.clkEnable ClkEnableAction.RCC_GPIOA_CLK_ENABLE,
            MspEvent.clkEnable ClkEnableAction.RCC_GPIOA_CLK_ENABLE,
            MspEvent.clkEnable ClkEnableAction.RCC_USART2_CLK_ENABLE],
          GPIOA, GPIOA,
          ⟨GPIO_PIN_2, GPIO_MODE_AF_PP, GPIO_PULLUP, GPIO_SPEED_FREQ_HIGH⟩,
          ⟨GPIO_PIN_3, GPIO_MODE_AF_PP, GPIO_PULLUP, GPIO_SPEED_FREQ_HIGH⟩,
          by decide, by decide, by decide, by decide, by decide, by decide,
          by decide⟩

/-- Witness for C9 at the concrete instance USART1. -/
theorem uart_mspInit_rx_matches_tx_config_witness :
    ∃ pre txPort rxPort txCfg rxCfg,
      HAL_UART_MspInit USART1 =
        some (pre ++ [MspEvent.gpioInit txPort txCfg,
                      MspEvent.gpioInit rxPort rxCfg]) ∧
      (∀ e ∈ pre, e.isClkEnable = true) ∧
      rxCfg = { txCfg with Pin := rxCfg.Pin } ∧
      rxCfg.Pin ≠ txCfg.Pin ∧
      txCfg.Mode = GPIO_MODE_AF_PP ∧
      txCfg.Pull = GPIO_PULLUP ∧
      txCfg.Speed = GPIO_SPEED_FREQ_HIGH :=
  uart_mspInit_rx_matches_tx_config USART1 (Or.inl rfl)

/-- C10: the compile-time binding table of `stm32_usart_conf_f1.h` and the
runtime resolvers of `hal_msp_f1.c` are extensionally equal on the
supported build options: for `usartx = 1` the header's instance, pins,
ports and clock-enable coincide with the resolvers at USART1, and for
`usartx = 2` with the resolvers at USART2. -/
theorem header_table_refines_resolvers (opt : Nat) (h : opt = 1 ∨ opt = 2) :
    ∃ b, USARTx opt = some b ∧
      USARTx_TX_PIN opt = USART_TX_PIN b ∧
      USARTx_RX_PIN opt = USART_RX_PIN b ∧
      USARTx_TX_GPIO_PORT opt = USART_TX_GPIO_PORT b ∧
      USARTx_RX_GPIO_PORT opt = USART_RX_GPIO_PORT b ∧
      USARTx_CLK_ENABLE opt = USART_CLK_ENABLE b := by
  rcases h with h | h <;> subst h
  · exact ⟨USART1, by decide, by decide, by decide, by decide, by decide,
           by decide⟩
  · exact ⟨USART2, by decide, by decide, by decide, by decide, by decide,
           by decide⟩

/-- Witness for C10 at the concrete build option `1`. -/
theorem header_table_refines_resolvers_witness :
    ∃ b, USARTx 1 = some b ∧
      USARTx_TX_PIN 1 = USART_TX_PIN b ∧
      USARTx_RX_PIN 1 = USART_RX_PIN b ∧
      USARTx_TX_GPIO_PORT 1 = USART_TX_GPIO_PORT b ∧
      USARTx_RX_GPIO_PORT 1 = USART_RX_GPIO_PORT b ∧
      USARTx_CLK_ENABLE 1 = USART_CLK_ENABLE b :=
  header_table_refines_resolvers 1 (Or.inl rfl)

end Embox
